import Mathlib

/-!
Verification development for the merchant data-refinement pipeline
(`data_refinement.py`).  The Python code is shallowly embedded:

* currency / percentage amounts (Python floats holding decimal values)
  are modelled as exact rationals `ℚ`;
* timestamps (`datetime` values, microsecond resolution) are modelled as
  integers `ℤ` counting microseconds since the Unix epoch;
* a Python function that can raise an exception is modelled with
  `Option` (`none` = an exception escapes the modelled code);
* `print` output is modelled as an append-only list of messages owned by
  the run.

Definitions follow the Python source line by line; theorems check the
frozen claims about the specification.
-/

namespace DataRefinement

/-! ## Basic string helpers (Python `str` operations) -/

/-- Characters stripped by Python `str.strip()` with no argument. -/
def pySpaceChars : List Char := [' ', '\t', '\n', '\r', '\x0b', '\x0c']

/-- Strip the characters of `bad` from both ends of a string
(Python `s.strip(bad)`). -/
def stripChars (bad : List Char) (s : String) : String :=
  let l := s.toList.dropWhile (fun c => c ∈ bad)
  ⟨(l.reverse.dropWhile (fun c => c ∈ bad)).reverse⟩

/-- Python `line.strip()` (whitespace strip). -/
def pyStrip (s : String) : String := stripChars pySpaceChars s

/-- Python `s.strip(' "')`. -/
def stripQuoteSpace (s : String) : String := stripChars [' ', '"'] s

/-- Python `s.strip('"')`. -/
def stripQuote (s : String) : String := stripChars ['"'] s

/-- Python `s.upper()` (ASCII data in this pipeline). -/
def pyUpper (s : String) : String := ⟨s.toList.map Char.toUpper⟩

/-- Python `s.lower()` (ASCII data in this pipeline). -/
def pyLower (s : String) : String := ⟨s.toList.map Char.toLower⟩

/-- Python `sub in s` on character lists: `p` occurs contiguously in `l`. -/
def listContains : List Char → List Char → Bool
  | [], p => p.isEmpty
  | l@(_ :: t), p => p.isPrefixOf l || listContains t p

/-- Python `sub in s` for strings. -/
def containsStr (s sub : String) : Bool := listContains s.toList sub.toList

/-- Python `s.startswith(pre)`. -/
def pyStartsWith (s pre : String) : Bool := pre.toList.isPrefixOf s.toList

/-- Python `s.endswith(suf)`. -/
def pyEndsWith (s suf : String) : Bool := suf.toList.isSuffixOf s.toList

/-- Python `s.split(',')` (plain comma split, no CSV quoting). -/
def splitCommaGo : List Char → List Char → List String
  | [], cur => [⟨cur.reverse⟩]
  | c :: t, cur =>
    if c = ',' then (⟨cur.reverse⟩ : String) :: splitCommaGo t []
    else splitCommaGo t (c :: cur)

/-- Python `s.split(',')`. -/
def pySplitComma (s : String) : List String := splitCommaGo s.toList []

/-! ## ValueExtractor: `_extract_currency`, `_extract_percentage` -/

/-- Value of a decimal digit string. -/
def natOfDigits : List Char → ℕ :=
  List.foldl (fun n c => 10 * n + (c.toNat - 48)) 0

/-- Python `float(g.replace(',', ''))` for a regex group `g` matching
`[0-9,]+\.?\d*`: `none` models the `ValueError` raised when the string
left after removing commas is empty or a bare dot. -/
def decToRat (g : List Char) : Option ℚ :=
  let l := g.filter (fun c => ¬ c = ',')
  let ip := l.takeWhile Char.isDigit
  let rest := l.dropWhile Char.isDigit
  match rest with
  | [] => if ip = [] then none else some (natOfDigits ip)
  | '.' :: fp =>
    if ip = [] ∧ fp = [] then none
    else some ((natOfDigits ip : ℚ) + (natOfDigits fp : ℚ) / (10 : ℚ) ^ fp.length)
  | _ => none

/-- The `[0-9,]+\.?\d*` group of the currency regex, matched greedily just
after the `$`; `none` when no `[0-9,]` character follows. -/
def currencyGroupAt (l : List Char) : Option (List Char) :=
  let r := l.takeWhile (fun c => c.isDigit || c = ',')
  if r = [] then none
  else
    match l.dropWhile (fun c => c.isDigit || c = ',') with
    | '.' :: r2 => some (r ++ '.' :: r2.takeWhile Char.isDigit)
    | _ => some r

/-- Leftmost match of `re.search(r'\"?\$([0-9,]+\.?\d*)\"?', line)`,
returning the captured group. -/
def currencyScan : List Char → Option (List Char)
  | [] => none
  | c :: t =>
    let attempt : Option (List Char) :=
      if c = '$' then currencyGroupAt t
      else if c = '"' then
        match t with
        | '$' :: t2 => currencyGroupAt t2
        | _ => none
      else none
    match attempt with
    | some g => some g
    | none => currencyScan t

/-- `_extract_currency` (data_refinement.py:190-194).  Returns `some 0`
when the regex finds no match; `none` models the `ValueError` that
`float` raises on an all-comma group. -/
def extract_currency (line : String) : Option ℚ :=
  match currencyScan line.toList with
  | none => some 0
  | some g => decToRat g

/-- Leftmost match of `re.search(r'(\d+\.?\d*)%', line)` as a rational. -/
def pctScan : List Char → Option ℚ
  | [] => none
  | c :: t =>
    if c.isDigit then
      let d := (c :: t).takeWhile Char.isDigit
      match (c :: t).dropWhile Char.isDigit with
      | '%' :: _ => some (natOfDigits d)
      | '.' :: r2 =>
        let e := r2.takeWhile Char.isDigit
        match r2.dropWhile Char.isDigit with
        | '%' :: _ => some ((natOfDigits d : ℚ) + (natOfDigits e : ℚ) / (10 : ℚ) ^ e.length)
        | _ => pctScan t
      | _ => pctScan t
    else pctScan t

/-- `_extract_percentage` (data_refinement.py:196-200). -/
def extract_percentage (line : String) : ℚ :=
  (pctScan line.toList).getD 0

/-! ## `csv.reader` on a single line

State machine of the CPython csv module with the default dialect
(delimiter `,`, quotechar `"`, doublequote on, non-strict), restricted to
one line with no embedded newline (every caller strips the line first). -/

/-- Parser states of the csv field scanner. -/
inductive CsvSt
  | atStart | inField | inQuoted | quoteInQuoted
deriving DecidableEq

/-- One step per character; `cur` holds the current field reversed. -/
def csvGo : CsvSt → List Char → List Char → List String → List String
  | _, cur, [], acc => acc ++ [⟨cur.reverse⟩]
  | .atStart, cur, c :: t, acc =>
    if c = '"' then csvGo .inQuoted cur t acc
    else if c = ',' then csvGo .atStart [] t (acc ++ [⟨cur.reverse⟩])
    else csvGo .inField (c :: cur) t acc
  | .inField, cur, c :: t, acc =>
    if c = ',' then csvGo .atStart [] t (acc ++ [⟨cur.reverse⟩])
    else csvGo .inField (c :: cur) t acc
  | .inQuoted, cur, c :: t, acc =>
    if c = '"' then csvGo .quoteInQuoted cur t acc
    else csvGo .inQuoted (c :: cur) t acc
  | .quoteInQuoted, cur, c :: t, acc =>
    if c = '"' then csvGo .inQuoted (c :: cur) t acc
    else if c = ',' then csvGo .atStart [] t (acc ++ [⟨cur.reverse⟩])
    else csvGo .inField (c :: cur) t acc

/-- `list(csv.reader(StringIO(line)))[0]` for a nonempty single line
(callers skip empty lines before reaching this). -/
def csvFields (l : List Char) : List String :=
  if l = [] then [] else csvGo .atStart [] l []

/-! ## ReportFormatParsers -/

/-- One extracted top-item candidate: `{'name': ..., 'gross_sales': ...}`. -/
structure SalesItem where
  name : String
  gross_sales : ℚ
deriving DecidableEq

/-- One body line of `_parse_marathon_items` (data_refinement.py:238-263):
lines after the header are CSV-tokenized; name and gross-sales are the
first two fields, `TOTAL` rows and non-positive amounts are dropped, and
a `ValueError` from `_extract_currency` is caught per line. -/
def marathonLine (line : String) : List SalesItem :=
  let l := pyStrip line
  if l = "" then []
  else
    let parts := csvFields l.toList
    if 2 ≤ parts.length then
      let nm := stripQuoteSpace (parts.getD 0 "")
      let gs := stripQuoteSpace (parts.getD 1 "")
      if nm ≠ "" ∧ gs ≠ "" then
        if pyUpper nm = "TOTAL" then []
        else
          match extract_currency gs with
          | none => []
          | some amt => if 0 < amt then [⟨nm, amt⟩] else []
      else []
    else []

/-- `_parse_marathon_items` (data_refinement.py:225-265), Variant A:
find the header line, then parse every following line. -/
def _parse_marathon_items (lines : List String) : List SalesItem :=
  match lines.findIdx? (fun l => containsStr l "Name,Gross Sales,Net Sales,Sold") with
  | none => []
  | some i => ((lines.drop (i + 1)).map marathonLine).flatten

/-- One line of `_parse_poke_items` (data_refinement.py:270-292). -/
def pokeLine (line : String) : List SalesItem :=
  let l := pyStrip line
  if pyStartsWith l "Total (" && containsStr l ")" then
    let parts := csvFields l.toList
    if 3 ≤ parts.length then
      let cat := stripQuoteSpace (parts.getD 0 "")
      let gs := stripQuoteSpace (parts.getD 2 "")
      if pyStartsWith cat "Total (" && pyEndsWith cat ")" then
        let clean : String := ⟨(cat.toList.drop 7).dropLast⟩
        match extract_currency gs with
        | none => []
        | some amt => if 0 < amt then [⟨clean, amt⟩] else []
      else []
    else []
  else []

/-- `_parse_poke_items` (data_refinement.py:267-294), Variant B. -/
def _parse_poke_items (lines : List String) : List SalesItem :=
  (lines.map pokeLine).flatten

/-- One line of `_parse_pizza_items` (data_refinement.py:299-318).
`none` models the uncaught `ValueError` from `_extract_currency` (this
parser has no try/except around the conversion). -/
def pizzaLine (line : String) : Option (List SalesItem) :=
  let l := pyStrip line
  if l = "" ∨ pyStartsWith l "," = false then some []
  else if ¬ (containsStr l "Pizza" = true ∨ containsStr l "pizza" = true) then some []
  else
    let parts := (pySplitComma l).map stripQuoteSpace
    if 3 ≤ parts.length then
      let nm := parts.getD 1 ""
      let gs := parts.getD 2 ""
      if nm ≠ "" ∧ (containsStr nm "Pizza" = true ∨ containsStr nm "pizza" = true) then
        match extract_currency gs with
        | none => none
        | some amt => some (if 0 < amt then [⟨nm, amt⟩] else [])
      else some []
    else some []

/-- `_parse_pizza_items` (data_refinement.py:296-320), Variant C: the
per-line loop; an uncaught `ValueError` on any line aborts the whole
parse (`none`), otherwise the per-line items are accumulated in order. -/
def _parse_pizza_items : List String → Option (List SalesItem)
  | [] => some []
  | line :: rest =>
    match pizzaLine line with
    | none => none
    | some x =>
      match _parse_pizza_items rest with
      | none => none
      | some xs => some (x ++ xs)

/-! ## FormatDispatcher: `_extract_top_items` -/

/-- The descending-by-gross-sales ordering used by
`items.sort(key=lambda x: x['gross_sales'], reverse=True)`. -/
def itemGe (a b : SalesItem) : Prop := b.gross_sales ≤ a.gross_sales

instance : DecidableRel itemGe := fun a b =>
  inferInstanceAs (Decidable (b.gross_sales ≤ a.gross_sales))

instance : IsTotal SalesItem itemGe :=
  ⟨fun a b => le_total b.gross_sales a.gross_sales⟩

instance : IsTrans SalesItem itemGe :=
  ⟨fun _ _ _ hab hbc => le_trans hbc hab⟩

/-- The shared ranking step of the dispatcher: Python `list.sort` is a
stable sort; with `reverse=True` it is the unique stable descending sort,
here realized as insertion sort on `itemGe`. -/
def sortStep (items : List SalesItem) : List SalesItem :=
  List.insertionSort itemGe items

/-- The parser-variant selection of `_extract_top_items`
(data_refinement.py:212-220), before ranking. -/
def dispatchCandidates (lines : List String) (merchant_name : String) :
    Option (List SalesItem) :=
  if containsStr merchant_name "MARATHON LIQUORS" then some (_parse_marathon_items lines)
  else if containsStr merchant_name "POKE HANA" then some (_parse_poke_items lines)
  else if containsStr merchant_name "Anthony\x27s Pizza" || containsStr merchant_name "Pizza" then
    _parse_pizza_items lines
  else some []

/-- `_extract_top_items` (data_refinement.py:211-223): dispatch, then sort
descending by gross sales (stable) and truncate to 3. -/
def _extract_top_items (lines : List String) (merchant_name : String) :
    Option (List SalesItem) :=
  (dispatchCandidates lines merchant_name).map (fun items => (sortStep items).take 3)

/-! ## `_extract_date_from_range` -/

/-- A regex word character (`\w`, ASCII data in this pipeline). -/
def wordChar (c : Char) : Bool := c.isAlphanum || c = '_'

/-- One attempt of the pattern `(\w+ \d+, \d+)` anchored at the head of
`l`; returns the matched token and the remaining input. -/
def matchDateTokenAt (l : List Char) : Option (List Char × List Char) :=
  let w := l.takeWhile wordChar
  if w = [] then none
  else
    match l.dropWhile wordChar with
    | ' ' :: r2 =>
      let d1 := r2.takeWhile Char.isDigit
      if d1 = [] then none
      else
        match r2.dropWhile Char.isDigit with
        | ',' :: ' ' :: r4 =>
          let d2 := r4.takeWhile Char.isDigit
          if d2 = [] then none
          else some (w ++ ' ' :: (d1 ++ ',' :: ' ' :: d2), r4.dropWhile Char.isDigit)
        | _ => none
    | _ => none

/-- `re.findall(r'(\w+ \d+, \d+)', s)`: leftmost, non-overlapping matches.
Each successful match consumes at least one character, so fuel
`l.length + 1` never runs out. -/
def findallGo : ℕ → List Char → List String
  | 0, _ => []
  | _, [] => []
  | fuel + 1, l@(_ :: t) =>
    match matchDateTokenAt l with
    | some (tok, rest) => (⟨tok⟩ : String) :: findallGo fuel rest
    | none => findallGo fuel t

/-- All `(\w+ \d+, \d+)` tokens of a string, in order. -/
def findallDates (s : String) : List String :=
  findallGo (s.toList.length + 1) s.toList

/-- A parsed calendar date (the result of a successful
`datetime.strptime(tok, '%b %d, %Y')`). -/
structure MDY where
  year : ℕ
  month : ℕ
  day : ℕ
deriving DecidableEq

/-- Abbreviated month names recognized by `%b` (matched case-insensitively
by `strptime`). -/
def monthAbbrevs : List (String × ℕ) :=
  [("jan", 1), ("feb", 2), ("mar", 3), ("apr", 4), ("may", 5), ("jun", 6),
   ("jul", 7), ("aug", 8), ("sep", 9), ("oct", 10), ("nov", 11), ("dec", 12)]

/-- Python `\s` characters. -/
def pyIsSpace (c : Char) : Bool := c ∈ pySpaceChars

/-- The `%d` directive: regex `3[01]|[12]\d|0[1-9]|[1-9]|\s[1-9]`,
alternatives tried in order. -/
def dayDirective : List Char → Option (ℕ × List Char)
  | [] => none
  | [c1] => if '1' ≤ c1 ∧ c1 ≤ '9' then some (c1.toNat - 48, []) else none
  | c1 :: c2 :: r =>
    if c1 = '3' ∧ (c2 = '0' ∨ c2 = '1') then some (c2.toNat - 48 + 30, r)
    else if (c1 = '1' ∨ c1 = '2') ∧ c2.isDigit then
      some (10 * (c1.toNat - 48) + (c2.toNat - 48), r)
    else if c1 = '0' ∧ ('1' ≤ c2 ∧ c2 ≤ '9') then some (c2.toNat - 48, r)
    else if '1' ≤ c1 ∧ c1 ≤ '9' then some (c1.toNat - 48, c2 :: r)
    else if pyIsSpace c1 ∧ ('1' ≤ c2 ∧ c2 ≤ '9') then some (c2.toNat - 48, r)
    else none

/-- Gregorian leap year, as in `datetime`. -/
def isLeap (y : ℕ) : Bool := y % 4 = 0 ∧ (y % 100 ≠ 0 ∨ y % 400 = 0)

/-- Days in a month, as validated by the `datetime` constructor. -/
def daysInMonth (y m : ℕ) : ℕ :=
  if m = 2 then (if isLeap y then 29 else 28)
  else if m = 4 ∨ m = 6 ∨ m = 9 ∨ m = 11 then 30
  else 31

/-- `datetime.strptime(s, '%b %d, %Y')`: abbreviated month
(case-insensitive), whitespace runs for the format spaces, 1-2 digit day,
exactly four year digits, whole input consumed, and `datetime` range
validation.  `none` models `ValueError`. -/
def strptimeBDY (s : String) : Option MDY :=
  let l := (pyLower s).toList
  match monthAbbrevs.find? (fun p => p.1.toList.isPrefixOf l) with
  | none => none
  | some (_, m) =>
    let r1 := l.drop 3
    let ws1 := r1.takeWhile pyIsSpace
    if ws1 = [] then none
    else
      match dayDirective (r1.dropWhile pyIsSpace) with
      | none => none
      | some (d, r3) =>
        match r3 with
        | ',' :: r3b =>
          let ws2 := r3b.takeWhile pyIsSpace
          if ws2 = [] then none
          else
            let r4 := r3b.dropWhile pyIsSpace
            if r4.length = 4 ∧ r4.all Char.isDigit then
              let y := natOfDigits r4
              if 1 ≤ y ∧ 1 ≤ d ∧ d ≤ daysInMonth y m then some ⟨y, m, d⟩ else none
            else none
        | _ => none

/-- `_extract_date_from_range` (data_refinement.py:202-209): parse the
last `(\w+ \d+, \d+)` token with `'%b %d, %Y'`; `none` models every path
that falls through to `return datetime.now()`. -/
def _extract_date_from_range (date_range : String) : Option MDY :=
  ((findallDates date_range).getLast?).bind strptimeBDY

/-! ## Timestamps -/

/-- Microseconds per day. -/
def usPerDay : ℤ := 86400000000

/-- `timedelta(days=30)` in microseconds. -/
def thirtyDaysUs : ℤ := 30 * usPerDay

/-- Days between a proleptic Gregorian date and 1970-01-01
(Hinnant civil-days algorithm, floor division). -/
def daysFromCivil (y : ℤ) (m d : ℕ) : ℤ :=
  let y' := y - (if m ≤ 2 then 1 else 0)
  let era := Int.fdiv y' 400
  let yoe := y' - era * 400
  let mp := (m + 9) % 12
  let doy := (153 * (mp : ℤ) + 2).fdiv 5 + d - 1
  let doe := yoe * 365 + yoe.fdiv 4 - yoe.fdiv 100 + doy
  era * 146097 + doe - 719468

/-- Timestamp (microseconds since the epoch) of a parsed date at
midnight, the value `datetime.strptime` produces. -/
def mdyTimestamp (x : MDY) : ℤ := daysFromCivil x.year x.month x.day * usPerDay

/-- The status rule of `_process_sales_file` (data_refinement.py:120-121):
`'Active' if last_activity > now - timedelta(days=30) else 'Inactive'`. -/
def merchantStatus (last_activity now : ℤ) : String :=
  if now - thirtyDaysUs < last_activity then "Active" else "Inactive"

/-! ## MerchantRecordBuilder: `_process_sales_file` -/

/-- One per-merchant inventory summary dictionary
(`_process_inventory_file` output shape). -/
structure InventorySummary where
  merchant_name : String
  file_source : String
  total_items : ℕ
  revenue_items : ℕ
  non_revenue_items : ℕ
  items_with_cost : ℕ
  hidden_items : ℕ
  avg_price : ℚ
  total_inventory_value : ℚ
deriving DecidableEq

/-- One merchant record as built by `_process_sales_file`; `Option`
fields model dictionary keys that may be absent (`inventory_details` is
only added later by `_add_inventory_to_merchants`). -/
structure MerchantRecord where
  merchant_name : String
  date_range : String
  file_source : String
  gross_sales : Option ℚ
  net_sales : Option ℚ
  gross_profit : Option ℚ
  gross_profit_margin : Option ℚ
  top_selling_items : List SalesItem
  last_activity : ℤ
  status : String
  inventory_details : Option InventorySummary
deriving DecidableEq

/-- Not a path separator (the `[^/\\]` class). -/
def nonSlash (c : Char) : Bool := ¬ (c = '/' ∨ c = '\\')

/-- One attempt of `re.search(r'([^/\\]+)-Revenue', path)` anchored at the
head: the greedy group is the longest nonempty run of non-separator
characters followed by the literal `-Revenue`. -/
def revTryAt (l : List Char) : Option (List Char) :=
  let run := l.takeWhile nonSlash
  if run = [] then none
  else
    (List.range run.length).reverse.findSome? (fun e =>
      if ("-Revenue".toList).isPrefixOf (l.drop (e + 1)) then some (l.take (e + 1))
      else none)

/-- Leftmost match of `re.search(r'([^/\\]+)-Revenue', path)`. -/
def reSearchRevenue : List Char → Option (List Char)
  | [] => none
  | l@(_ :: t) =>
    match revTryAt l with
    | some g => some g
    | none => reSearchRevenue t

/-- The merchant-name derivation of `_process_sales_file`
(data_refinement.py:90-94). -/
def merchantNameOf (path : String) : String :=
  match reSearchRevenue path.toList with
  | some g => ⟨g⟩
  | none => "Unknown"

/-- One input file: `content = none` models an I/O error when opening or
reading it; the lines carry no trailing newline. -/
structure SrcFile where
  path : String
  content : Option (List String)
deriving DecidableEq

/-- The summary-marker scan of `_process_sales_file`
(data_refinement.py:107-115): an if/elif chain per line, later matches
overwriting earlier ones; `none` models an escaping `ValueError` from
`_extract_currency`. -/
def scalarStep (acc : Option ℚ × Option ℚ × Option ℚ × Option ℚ) (line : String) :
    Option (Option ℚ × Option ℚ × Option ℚ × Option ℚ) :=
  let (g, n, p, m) := acc
  if containsStr line "Gross Sales" && containsStr line "$" then
    (extract_currency line).map (fun v => (some v, n, p, m))
  else if containsStr line "Net Sales" && containsStr line "$" then
    (extract_currency line).map (fun v => (g, some v, p, m))
  else if containsStr line "Gross Profit," && !containsStr line "Margin" then
    (extract_currency line).map (fun v => (g, n, some v, m))
  else if containsStr line "Gross Profit Margin" then
    some (g, n, p, some (extract_percentage line))
  else some acc

/-- The try-block body of `_process_sales_file` (data_refinement.py:90-123)
for one file: `none` models any escaping exception (I/O error, the
`lines[1]` IndexError, or a `ValueError` out of extraction), in which case
no record is produced. -/
def buildSalesRecord (now : ℤ) (f : SrcFile) : Option MerchantRecord := do
  let mname := merchantNameOf f.path
  let lines ← f.content
  let dr0 ← lines.get? 1
  let dr := stripQuote dr0
  let (g, n, p, m) ← lines.foldlM scalarStep (none, none, none, none)
  let items ← _extract_top_items lines mname
  let la :=
    match _extract_date_from_range dr with
    | some d => mdyTimestamp d
    | none => now
  pure { merchant_name := mname, date_range := dr, file_source := f.path,
         gross_sales := g, net_sales := n, gross_profit := p, gross_profit_margin := m,
         top_selling_items := items, last_activity := la,
         status := merchantStatus la now, inventory_details := none }

/-- The in-memory accumulator of a run: built merchant records, processed
customer files, and the printed output stream. -/
structure RunState where
  sales_data : List MerchantRecord
  customers : List String
  output : List String
deriving DecidableEq

/-- `_process_sales_file` (data_refinement.py:87-126): on any exception
the file is skipped, an error message is recorded and the merchant list
is left unchanged; on success the record is appended last. -/
def _process_sales_file (now : ℤ) (st : RunState) (f : SrcFile) : RunState :=
  let st := { st with output := st.output ++ ["Processing sales file: " ++ f.path] }
  match buildSalesRecord now f with
  | some r => { st with sales_data := st.sales_data ++ [r] }
  | none => { st with output := st.output ++ ["Error in sales file processing"] }

/-- `_process_customer_file` (data_refinement.py:48-85), modelled at the
interface level this development needs: the whole body sits in a
try/except, so it never raises; it appends the parsed frame (here, the
file path) on success and records a message on failure. -/
def _process_customer_file (st : RunState) (f : SrcFile) : RunState :=
  let st := { st with output := st.output ++ ["Processing customer file: " ++ f.path] }
  match f.content with
  | some _ => { st with customers := st.customers ++ [f.path] }
  | none => { st with output := st.output ++ ["Error in customer file processing"] }

/-- The CSV loop of `load_data_files` (data_refinement.py:30-37): dispatch
on the filename, one file at a time; both branches catch their own
exceptions, so the loop never stops early. -/
def loadCsvFiles (now : ℤ) (files : List SrcFile) (st : RunState) : RunState :=
  files.foldl
    (fun s f =>
      if containsStr f.path "Customer" then _process_customer_file s f
      else if containsStr f.path "Revenue" || containsStr f.path "Sales" then
        _process_sales_file now s f
      else s)
    st

/-! ## `_map_inventory_to_merchant` -/

/-- `_map_inventory_to_merchant` (data_refinement.py:128-136). -/
def _map_inventory_to_merchant (file_path : String) : String :=
  if containsStr file_path "inventory-export-v2" then "MARATHON LIQUORS"
  else if containsStr file_path "inventory-export-2" then "POKE HANA"
  else if containsStr file_path "inventory-export" && !containsStr file_path "v2"
      && !containsStr file_path "2" then "Anthony\x27s Pizza & Pasta"
  else "Unknown Merchant"

/-! ## `_add_inventory_to_merchants` -/

/-- The zero-valued placeholder of `_add_inventory_to_merchants`
(data_refinement.py:337-347). -/
def placeholderInventory (merchant_name : String) : InventorySummary :=
  { merchant_name := merchant_name, file_source := "No inventory file",
    total_items := 0, revenue_items := 0, non_revenue_items := 0,
    items_with_cost := 0, hidden_items := 0, avg_price := 0,
    total_inventory_value := 0 }

/-- `_add_inventory_to_merchants` (data_refinement.py:322-347).  Note the
guard on line 323: when either list is empty the function returns at once
and no `inventory_details` key is added. -/
def _add_inventory_to_merchants (inventory_data : List InventorySummary)
    (sales_data : List MerchantRecord) : List MerchantRecord :=
  if inventory_data = [] ∨ sales_data = [] then sales_data
  else
    sales_data.map (fun m =>
      match inventory_data.filter (fun inv => inv.merchant_name = m.merchant_name) with
      | [] => { m with inventory_details := some (placeholderInventory m.merchant_name) }
      | inv :: _ => { m with inventory_details := some inv })

/-! ## Rounding -/

/-- Python `round(x, 2)`: round half to even at two decimal places
(exact on the rationals this model uses). -/
def pyRound2 (x : ℚ) : ℚ :=
  let y := x * 100
  let f := Int.floor y
  let r := y - f
  (((if r < 1/2 then f
     else if 1/2 < r then f + 1
     else if f % 2 = 0 then f else f + 1) : ℤ) : ℚ) / 100

/-! ## ForecastEngine: `_generate_predictions` -/

/-- The `next_2_months` sub-dictionary. -/
structure NextTwoMonths where
  month_1_forecast : ℚ
  month_2_forecast : ℚ
  total_2_months : ℚ
deriving DecidableEq

/-- The `same_period_next_year` sub-dictionary. -/
structure NextYear where
  forecast : ℚ
  growth_projection : String
deriving DecidableEq

/-- The `predictions` dictionary; `none` sub-dictionaries model the empty
`{}` left in place when there is no sales data. -/
structure Predictions where
  next_2_months : Option NextTwoMonths
  same_period_next_year : Option NextYear
  methodology : String
deriving DecidableEq

/-- `_generate_predictions` (data_refinement.py:477-510).  The float
constants `0.05` and `0.15` are the decimals `5/100` and `15/100`;
`f"{annual_growth_rate * 100}%"` prints as `15.0%`. -/
def _generate_predictions (sales_data : List MerchantRecord) : Predictions :=
  if sales_data = [] then
    ⟨none, none, "Linear trend extrapolation based on current data"⟩
  else
    let total_sales := (sales_data.map (fun m => m.gross_sales.getD 0)).sum
    let num_merchants := sales_data.length
    let monthly_avg := total_sales / ((max num_merchants 1 : ℕ) : ℚ) / 3
    let growth_rate : ℚ := 5 / 100
    let month1_prediction := monthly_avg * (1 + growth_rate)
    let month2_prediction := month1_prediction * (1 + growth_rate)
    let annual_growth_rate : ℚ := 15 / 100
    let next_year_forecast := total_sales * (1 + annual_growth_rate)
    ⟨some ⟨pyRound2 month1_prediction, pyRound2 month2_prediction,
           pyRound2 (month1_prediction + month2_prediction)⟩,
     some ⟨pyRound2 next_year_forecast, "15.0%"⟩,
     "Linear trend extrapolation based on current data"⟩

/-! ## EntityAggregator: `generate_analytics`

The customer and business-account tables arrive already cleaned; each is
modelled as the list of its rows, carrying exactly the derived columns
`generate_analytics` reads.  An empty row list corresponds to the
`if self.customers:` / `if self.business_customers:` else-branches. -/

/-- One row of the concatenated customer table. -/
structure CustomerRow where
  status : String
  hasName : Bool
  hasPhone : Bool
  hasEmail : Bool
  hasAddress : Bool
  profileComplete : Bool
  customerSince : Option ℤ
deriving DecidableEq

/-- The `analytics['customers']` dictionary. -/
structure CustomersAnalytics where
  total_onboarded : ℕ
  active_customers : ℕ
  inactive_customers : ℕ
  customers_with_names : ℕ
  customers_with_phone : ℕ
  customers_with_email : ℕ
  customers_with_address : ℕ
  profile_complete : ℕ
  recent_signups_30days : ℕ
  date_earliest : Option ℤ
  date_latest : Option ℤ
  engagement_rate : ℚ
deriving DecidableEq

/-- The customers branch of `generate_analytics`
(data_refinement.py:362-383); `nowSample` is the `datetime.now()` value
read on line 376. -/
def customersAnalyticsOf (rows : List CustomerRow) (nowSample : ℤ) : CustomersAnalytics :=
  let since := rows.filterMap (fun r => r.customerSince)
  { total_onboarded := rows.length,
    active_customers := (rows.filter (fun r => r.status = "Active")).length,
    inactive_customers := (rows.filter (fun r => r.status = "Inactive")).length,
    customers_with_names := (rows.filter (fun r => r.hasName)).length,
    customers_with_phone := (rows.filter (fun r => r.hasPhone)).length,
    customers_with_email := (rows.filter (fun r => r.hasEmail)).length,
    customers_with_address := (rows.filter (fun r => r.hasAddress)).length,
    profile_complete := (rows.filter (fun r => r.profileComplete)).length,
    recent_signups_30days :=
      (rows.filter (fun r =>
        match r.customerSince with
        | some t => nowSample - thirtyDaysUs < t
        | none => False)).length,
    date_earliest := since.min?,
    date_latest := since.max?,
    engagement_rate :=
      if 0 < rows.length then
        ((rows.filter (fun r => r.status = "Active")).length : ℚ) / rows.length * 100
      else 0 }

/-- The `analytics['customers']` else-branch dictionary
(data_refinement.py:385-397). -/
def emptyCustomersAnalytics : CustomersAnalytics :=
  ⟨0, 0, 0, 0, 0, 0, 0, 0, 0, none, none, 0⟩

/-- One row of the concatenated business-customer table, with the derived
columns added by `_process_business_customer_file`. -/
structure BusinessRow where
  legalName : String
  dbaName : String
  customerId : String
  accountStatus : String
  mtdVolume : ℚ
  lastMonthVolume : ℚ
  isActive : Bool
  highVolume : Bool
  totalVolume : ℚ
  volumeCategory : String
deriving DecidableEq

/-- One entry of `top_3_business_customers`
(`_get_top_business_customers`, data_refinement.py:515-524). -/
structure TopBusinessEntry where
  business_name : String
  dba_name : String
  customer_id : String
  total_volume : ℚ
  mtd_volume : ℚ
  last_month_volume : ℚ
  account_status : String
  volume_category : String
deriving DecidableEq

/-- The `analytics['business_customers']` dictionary. -/
structure BusinessAnalytics where
  total_business_accounts : ℕ
  active_accounts : ℕ
  live_accounts : ℕ
  total_mtd_volume : ℚ
  total_last_month_volume : ℚ
  high_volume_accounts : ℕ
  avg_volume_per_account : ℚ
  vol_high : ℕ
  vol_medium : ℕ
  vol_low : ℕ
  top_3_business_customers : List TopBusinessEntry
deriving DecidableEq

/-- The descending-by-total-volume ordering of `nlargest`. -/
def busGe (a b : BusinessRow) : Prop := b.totalVolume ≤ a.totalVolume

instance : DecidableRel busGe := fun a b =>
  inferInstanceAs (Decidable (b.totalVolume ≤ a.totalVolume))

/-- `_get_top_business_customers` (data_refinement.py:512-525):
`nlargest(limit, 'Total_Volume')` keeps first occurrences on ties
(a stable descending selection). -/
def _get_top_business_customers (rows : List BusinessRow) (limit : ℕ) :
    List TopBusinessEntry :=
  ((List.insertionSort busGe rows).take limit).map (fun r =>
    ⟨r.legalName, r.dbaName, r.customerId, r.totalVolume, r.mtdVolume,
     r.lastMonthVolume, r.accountStatus, r.volumeCategory⟩)

/-- The business branch of `generate_analytics`
(data_refinement.py:400-429). -/
def businessAnalyticsOf (rows : List BusinessRow) : BusinessAnalytics :=
  if rows = [] then ⟨0, 0, 0, 0, 0, 0, 0, 0, 0, 0, []⟩
  else
    { total_business_accounts := rows.length,
      active_accounts := (rows.filter (fun r => r.isActive)).length,
      live_accounts := (rows.filter (fun r => r.accountStatus = "Live")).length,
      total_mtd_volume := (rows.map (fun r => r.mtdVolume)).sum,
      total_last_month_volume := (rows.map (fun r => r.lastMonthVolume)).sum,
      high_volume_accounts := (rows.filter (fun r => r.highVolume)).length,
      avg_volume_per_account := (rows.map (fun r => r.mtdVolume)).sum / rows.length,
      vol_high := (rows.filter (fun r => r.volumeCategory = "High")).length,
      vol_medium := (rows.filter (fun r => r.volumeCategory = "Medium")).length,
      vol_low := (rows.filter (fun r => r.volumeCategory = "Low")).length,
      top_3_business_customers := _get_top_business_customers rows 3 }

/-- The `analytics['merchants']` dictionary; `average_profit_margin` is
`none` when `np.mean` is taken of an empty list (IEEE NaN). -/
structure MerchantsAnalytics where
  total_merchants : ℕ
  active_merchants : ℕ
  inactive_merchants : ℕ
  total_gross_sales : ℚ
  total_net_sales : ℚ
  average_profit_margin : Option ℚ
  merchant_details : List MerchantRecord
  top_3_merchants : List MerchantRecord
deriving DecidableEq

/-- The descending-by-gross-sales ordering of
`sorted(self.sales_data, key=lambda x: x.get('gross_sales', 0), reverse=True)`. -/
def merchGe (a b : MerchantRecord) : Prop :=
  b.gross_sales.getD 0 ≤ a.gross_sales.getD 0

instance : DecidableRel merchGe := fun a b =>
  inferInstanceAs (Decidable (b.gross_sales.getD 0 ≤ a.gross_sales.getD 0))

/-- The merchants branch of `generate_analytics`
(data_refinement.py:431-454).  On line 438, `np.mean` of the
positive-margin list is `NaN` (modelled `none`) when that list is empty;
the `else` branch for an empty merchant set writes the literal `0`. -/
def merchantsAnalyticsOf (sales_data : List MerchantRecord) : MerchantsAnalytics :=
  if sales_data = [] then ⟨0, 0, 0, 0, 0, some 0, [], []⟩
  else
    let margins := (sales_data.map (fun m => m.gross_profit_margin.getD 0)).filter
      (fun v => 0 < v)
    { total_merchants := sales_data.length,
      active_merchants := (sales_data.filter (fun m => m.status = "Active")).length,
      inactive_merchants := (sales_data.filter (fun m => m.status = "Inactive")).length,
      total_gross_sales := (sales_data.map (fun m => m.gross_sales.getD 0)).sum,
      total_net_sales := (sales_data.map (fun m => m.net_sales.getD 0)).sum,
      average_profit_margin :=
        if margins = [] then none else some (margins.sum / margins.length),
      merchant_details := sales_data,
      top_3_merchants := (List.insertionSort merchGe sales_data).take 3 }

/-- `_calculate_active_rate` (data_refinement.py:527-542). -/
def _calculate_active_rate (total_entities active_entities : ℕ) : ℚ :=
  if total_entities = 0 then 0
  else pyRound2 ((active_entities : ℚ) / total_entities * 100)

/-- The `analytics['summary']` dictionary; `data_processing_date` holds
the `datetime.now()` instant sampled on line 466. -/
structure SummaryAnalytics where
  total_entities_onboarded : ℕ
  total_platform_volume : ℚ
  overall_active_rate : ℚ
  data_processing_date : ℤ
  breakdown_individual_customers : ℕ
  breakdown_merchants : ℕ
  breakdown_business_customers : ℕ
deriving DecidableEq

/-- The full analytics document. -/
structure Analytics where
  customers : CustomersAnalytics
  business_customers : BusinessAnalytics
  merchants : MerchantsAnalytics
  predictions : Predictions
  summary : SummaryAnalytics
deriving DecidableEq

/-- `generate_analytics` (data_refinement.py:349-475) as a function of the
four record sets and the wall clock.  The function samples
`datetime.now()` internally: `clock k` is the value of the `k`-th call
made during the run — one sample inside the customers branch (line 376,
only when there are customer rows) and one for `data_processing_date`
(line 466).  There is no reference-time parameter in the source; `clock`
makes the implicit samples explicit. -/
def generate_analytics (customerRows : List CustomerRow) (businessRows : List BusinessRow)
    (salesData : List MerchantRecord) (inventoryData : List InventorySummary)
    (clock : ℕ → ℤ) : Analytics :=
  let sales := _add_inventory_to_merchants inventoryData salesData
  let custA :=
    if customerRows = [] then emptyCustomersAnalytics
    else customersAnalyticsOf customerRows (clock 0)
  let dpdSample : ℕ := if customerRows = [] then 0 else 1
  let busA := businessAnalyticsOf businessRows
  let merchA := merchantsAnalyticsOf sales
  let preds := _generate_predictions sales
  let total_entities :=
    custA.total_onboarded + merchA.total_merchants + busA.total_business_accounts
  let active_entities :=
    custA.active_customers + merchA.active_merchants + busA.active_accounts
  { customers := custA,
    business_customers := busA,
    merchants := merchA,
    predictions := preds,
    summary :=
      { total_entities_onboarded := total_entities,
        total_platform_volume := merchA.total_gross_sales + busA.total_mtd_volume,
        overall_active_rate := _calculate_active_rate total_entities active_entities,
        data_processing_date := clock dpdSample,
        breakdown_individual_customers := custA.total_onboarded,
        breakdown_merchants := merchA.total_merchants,
        breakdown_business_customers := busA.total_business_accounts } }

/-! ## Claim-shaped predicates and concrete sample data -/

/-- The conditions Variant C actually demands of a line before it yields a
candidate item: leading separator, the keyword in one of the two exact
casings `Pizza`/`pizza` in the line and in the item-name field, and a
strictly positive extracted gross-sales amount. -/
def pizzaRowOk (line : String) (it : SalesItem) : Prop :=
  pyStartsWith (pyStrip line) "," = true ∧
  (containsStr (pyStrip line) "Pizza" = true ∨ containsStr (pyStrip line) "pizza" = true) ∧
  3 ≤ ((pySplitComma (pyStrip line)).map stripQuoteSpace).length ∧
  it.name = ((pySplitComma (pyStrip line)).map stripQuoteSpace).getD 1 "" ∧
  it.name ≠ "" ∧
  (containsStr it.name "Pizza" = true ∨ containsStr it.name "pizza" = true) ∧
  extract_currency (((pySplitComma (pyStrip line)).map stripQuoteSpace).getD 2 "") =
    some it.gross_sales ∧
  0 < it.gross_sales

/-- A minimal merchant record for concrete tests. -/
def mkSalesMerchant (name : String) (gross margin : Option ℚ) : MerchantRecord :=
  { merchant_name := name, date_range := "", file_source := "",
    gross_sales := gross, net_sales := none, gross_profit := none,
    gross_profit_margin := margin, top_selling_items := [], last_activity := 0,
    status := "Inactive", inventory_details := none }

/-- Three merchants with 30000 total gross sales (forecast sample). -/
def forecastSample : List MerchantRecord :=
  [mkSalesMerchant "A" (some 12000) none, mkSalesMerchant "B" (some 10000) none,
   mkSalesMerchant "C" (some 8000) none]

/-- A merchant with no matching inventory summary. -/
def acmeMerchant : MerchantRecord := mkSalesMerchant "Acme" none none

/-- An inventory summary for an unrelated merchant. -/
def invX : InventorySummary := ⟨"X", "x.xlsx", 1, 1, 0, 0, 0, 2, 2⟩

/-- Merchants whose positive profit margins are 30 and 50 (and one zero
margin, which the mean must skip). -/
def marginSample : List MerchantRecord :=
  [mkSalesMerchant "A" none (some 30), mkSalesMerchant "B" none (some 0),
   mkSalesMerchant "C" none (some 50)]

/-- Variant C sample report lines with a gross-sales tie. -/
def pizzaLines : List String :=
  [",Cheese Pizza,$7.00", ",Veggie Pizza,$5.00", ",Meat pizza,$5.00",
   ",Supreme Pizza,$1.00"]

/-- One customer row (used by the determinism counterexample). -/
def c5CustomerRow : CustomerRow := ⟨"Active", true, true, true, true, true, some 0⟩

/-- A constant wall clock. -/
def clockA : ℕ → ℤ := fun _ => 0

/-- A wall clock that has advanced by the time of the second sample. -/
def clockB : ℕ → ℤ := fun k => if k = 0 then 0 else 1

/-- A wall clock agreeing with `clockA` on the two sampled instants only. -/
def clockC : ℕ → ℤ := fun k => if k < 2 then 0 else 42

/-- A sales-report file whose body is too short: reading `lines[1]`
raises `IndexError`. -/
def failFile : SrcFile := ⟨"X-Revenue.csv", some ["header only"]⟩

/-- A well-formed (if empty) sales-report file. -/
def okFile : SrcFile := ⟨"Y-Sales.csv", some ["h", "r"]⟩

/-- The initial run state. -/
def st0 : RunState := ⟨[], [], []⟩

/-- The date range whose last token uses a full month name. -/
def c10ExampleRange : String := "Jan 1, 2024 - January 15, 2024"

/-! # Theorems -/

/-! ## Substring containment -/

theorem isPrefixOf_iff_exists_append {p l : List Char} :
    p.isPrefixOf l = true ↔ ∃ u, l = p ++ u := by
  induction p generalizing l with
  | nil => simp [List.isPrefixOf]
  | cons a p ih =>
    cases l with
    | nil => simp [List.isPrefixOf]
    | cons b l =>
      simp only [List.isPrefixOf, Bool.and_eq_true, beq_iff_eq, ih,
        List.cons_append, List.cons.injEq]
      constructor
      · rintro ⟨rfl, u, rfl⟩; exact ⟨u, rfl, rfl⟩
      · rintro ⟨u, rfl, rfl⟩; exact ⟨rfl, u, rfl⟩

theorem listContains_iff {l p : List Char} :
    listContains l p = true ↔ ∃ s t, l = s ++ p ++ t := by
  induction l with
  | nil =>
    simp only [listContains, List.isEmpty_iff]
    constructor
    · rintro rfl; exact ⟨[], [], rfl⟩
    · rintro ⟨s, t, h⟩
      rcases List.append_eq_nil.mp h.symm with ⟨h1, _⟩
      exact (List.append_eq_nil.mp h1).2
  | cons a l ih =>
    simp only [listContains, Bool.or_eq_true, isPrefixOf_iff_exists_append, ih]
    constructor
    · rintro (⟨u, hu⟩ | ⟨s, t, ht⟩)
      · exact ⟨[], u, by simpa using hu⟩
      · exact ⟨a :: s, t, by simp [ht]⟩
    · rintro ⟨s, t, ht⟩
      cases s with
      | nil => exact Or.inl ⟨t, by simpa using ht⟩
      | cons b s =>
        rw [List.cons_append, List.cons_append, List.cons.injEq] at ht
        exact Or.inr ⟨s, t, ht.2⟩

/-- Substring containment is transitive through an intermediate string. -/
theorem listContains_of_listContains {l p q : List Char}
    (hpq : listContains p q = true) (hlp : listContains l p = true) :
    listContains l q = true := by
  rcases listContains_iff.mp hpq with ⟨s1, t1, rfl⟩
  rcases listContains_iff.mp hlp with ⟨s2, t2, rfl⟩
  exact listContains_iff.mpr ⟨s2 ++ s1, t1 ++ t2, by simp⟩

theorem containsStr_of_containsStr {l p q : String}
    (hpq : containsStr p q = true) (hlp : containsStr l p = true) :
    containsStr l q = true :=
  listContains_of_listContains hpq hlp

/-! ## C2 -/

/-- C2: a merchant is `Active` iff its `last_activity` is strictly after
`now - timedelta(days=30)`; at exactly the cutoff it is `Inactive`, and at
any strictly later instant it is `Active`. -/
theorem c2_status_boundary : ∀ last_activity now : ℤ,
    (merchantStatus last_activity now = "Active" ↔
      now - thirtyDaysUs < last_activity) ∧
    (merchantStatus last_activity now = "Inactive" ↔
      last_activity ≤ now - thirtyDaysUs) ∧
    merchantStatus (now - thirtyDaysUs) now = "Inactive" := by
  intro la now
  by_cases h : now - thirtyDaysUs < la
  · refine ⟨⟨fun _ => h, fun _ => by rw [merchantStatus, if_pos h]⟩,
      ⟨fun hx => ?_, fun hx => absurd h (not_lt.mpr hx)⟩, ?_⟩
    · rw [merchantStatus, if_pos h] at hx
      exact absurd hx (by decide)
    · rw [merchantStatus, if_neg (lt_irrefl _)]
  · refine ⟨⟨fun hx => ?_, fun hx => absurd hx h⟩,
      ⟨fun _ => not_lt.mp h, fun _ => by rw [merchantStatus, if_neg h]⟩, ?_⟩
    · rw [merchantStatus, if_neg h] at hx
      exact absurd hx (by decide)
    · rw [merchantStatus, if_neg (lt_irrefl _)]

/-! ## C9 -/

/-- C9: the filename-to-merchant lookup checks its three patterns in
priority order: `inventory-export-v2` anywhere gives MARATHON LIQUORS;
otherwise `inventory-export-2` gives POKE HANA; the pizza merchant is
returned exactly for paths containing `inventory-export` but no `2`
anywhere; every other path maps to Unknown Merchant. -/
theorem c9_inventory_mapping : ∀ file_path : String,
    (_map_inventory_to_merchant file_path = "MARATHON LIQUORS" ↔
      containsStr file_path "inventory-export-v2" = true) ∧
    (_map_inventory_to_merchant file_path = "POKE HANA" ↔
      (containsStr file_path "inventory-export-v2" = false ∧
       containsStr file_path "inventory-export-2" = true)) ∧
    (_map_inventory_to_merchant file_path = "Anthony\x27s Pizza & Pasta" ↔
      (containsStr file_path "inventory-export" = true ∧
       containsStr file_path "2" = false)) ∧
    (_map_inventory_to_merchant file_path = "Unknown Merchant" ↔
      (containsStr file_path "inventory-export-v2" = false ∧
       containsStr file_path "inventory-export-2" = false ∧
       ¬(containsStr file_path "inventory-export" = true ∧
         containsStr file_path "2" = false))) := by
  intro fp
  have h12 : containsStr fp "inventory-export-v2" = true → containsStr fp "2" = true :=
    fun h => containsStr_of_containsStr (by decide) h
  have h22 : containsStr fp "inventory-export-2" = true → containsStr fp "2" = true :=
    fun h => containsStr_of_containsStr (by decide) h
  have hv2 : containsStr fp "v2" = true → containsStr fp "2" = true :=
    fun h => containsStr_of_containsStr (by decide) h
  unfold _map_inventory_to_merchant
  cases hb1 : containsStr fp "inventory-export-v2" <;>
    cases hb2 : containsStr fp "inventory-export-2" <;>
      cases hb3 : containsStr fp "inventory-export" <;>
        cases hb4 : containsStr fp "2" <;>
          cases hb5 : containsStr fp "v2" <;>
            simp_all

/-! ## C10 -/

/-- C10: `_extract_date_from_range` parses only the last
`(\w+ \d+, \d+)` token, with `strptime('%b %d, %Y')`; when there is no
token, or the last token does not parse in that exact format, the result
is `none` — the code then returns `datetime.now()` — regardless of any
earlier parsable token. -/
theorem c10_last_token_only : ∀ s : String,
    (findallDates s = [] → _extract_date_from_range s = none) ∧
    (∀ toks tok, findallDates s = toks ++ [tok] →
      _extract_date_from_range s = strptimeBDY tok) := by
  intro s
  constructor
  · intro h
    unfold _extract_date_from_range
    rw [h]
    rfl
  · intro toks tok h
    unfold _extract_date_from_range
    rw [h, List.getLast?_concat]
    rfl

/-- C10 witness: in `"Jan 1, 2024 - January 15, 2024"` the first token
parses, but only the last token is attempted; its full month name fails
`%b`, so the function falls back to the current processing time. -/
theorem c10_witness :
    findallDates c10ExampleRange = ["Jan 1, 2024", "January 15, 2024"] ∧
    strptimeBDY "Jan 1, 2024" = some ⟨2024, 1, 1⟩ ∧
    _extract_date_from_range c10ExampleRange = none := by
  refine ⟨by decide, by decide, ?_⟩
  rw [(c10_last_token_only c10ExampleRange).2 ["Jan 1, 2024"] "January 15, 2024" (by decide)]
  decide

/-! ## C3 -/

/-- C3: the forecast is a deterministic function of the merchant set and
follows the fixed geometric formulas: with `S` the summed gross sales and
`N` the merchant count (`1` substituted for `0`),
`month1 = round2(S/N/3 * 1.05)`, `month2 = round2(month1_raw * 1.05)`,
`total = round2(month1_raw + month2_raw)` and the annual forecast is
`round2(S * 1.15)`. -/
theorem c3_forecast (sales_data : List MerchantRecord) (h : sales_data ≠ []) :
    _generate_predictions sales_data =
      (let S := (sales_data.map (fun m => m.gross_sales.getD 0)).sum
       let N := sales_data.length
       let monthly_avg := S / ((max N 1 : ℕ) : ℚ) / 3
       let m1 := monthly_avg * (21 / 20)
       let m2 := m1 * (21 / 20)
       ⟨some ⟨pyRound2 m1, pyRound2 m2, pyRound2 (m1 + m2)⟩,
        some ⟨pyRound2 (S * (23 / 20)), "15.0%"⟩,
        "Linear trend extrapolation based on current data"⟩) := by
  unfold _generate_predictions
  rw [if_neg h]
  norm_num

/-- C3 witness: with total gross sales 30000 over 3 merchants the rounded
outputs are 3500.00, 3675.00, 7175.00 and the annual forecast 34500.00. -/
theorem c3_witness :
    _generate_predictions forecastSample =
      ⟨some ⟨3500, 3675, 7175⟩, some ⟨34500, "15.0%"⟩,
       "Linear trend extrapolation based on current data"⟩ := by
  rw [c3_forecast forecastSample (by decide)]
  norm_num [forecastSample, mkSalesMerchant, pyRound2]

/-! ## C4 -/

/-- C4 counterexample: with an empty inventory set the cross-link step
returns at once, so the merchant record still has no `inventory_details`
key — the claim promises the key is never missing even in this case. -/
theorem c4_counterexample :
    _add_inventory_to_merchants [] [acmeMerchant] = [acmeMerchant] ∧
    acmeMerchant.inventory_details = none := by
  refine ⟨by decide, rfl⟩

/-- C4 amended: provided at least one inventory summary was loaded, every
record after the cross-link has an `inventory_details` value: the first
summary sharing its merchant name when one exists, otherwise the
placeholder with all numeric fields 0 and the `No inventory file`
marker. -/
theorem c4_amended (inventory_data : List InventorySummary)
    (sales_data : List MerchantRecord) (hinv : inventory_data ≠ []) :
    ∀ m ∈ _add_inventory_to_merchants inventory_data sales_data,
      m.inventory_details ≠ none ∧
      (inventory_data.filter (fun inv => inv.merchant_name = m.merchant_name) = [] →
        m.inventory_details = some (placeholderInventory m.merchant_name)) ∧
      (∀ hd tl,
        inventory_data.filter (fun inv => inv.merchant_name = m.merchant_name) = hd :: tl →
        m.inventory_details = some hd) := by
  intro m hm
  by_cases hs : sales_data = []
  · rw [hs] at hm
    unfold _add_inventory_to_merchants at hm
    simp at hm
  · unfold _add_inventory_to_merchants at hm
    rw [if_neg (by simp [hinv, hs])] at hm
    rcases List.mem_map.mp hm with ⟨m0, _, rfl⟩
    cases hfilt : inventory_data.filter (fun inv => inv.merchant_name = m0.merchant_name) with
    | nil => rw [hfilt]; simp [hfilt]
    | cons hd tl => rw [hfilt]; simp [hfilt]

/-- C4 witness: the amended claim at a concrete merchant with no matching
summary, in a run with a (non-matching) inventory summary present. -/
theorem c4_witness :
    ({ acmeMerchant with
        inventory_details := some (placeholderInventory "Acme") } : MerchantRecord).inventory_details ≠
      none :=
  (c4_amended [invX] [acmeMerchant] (by decide) _ (by decide)).1

/-! ## C6 -/

/-- C6 counterexample: one merchant with margin 0 — the positive-margin
list is empty and `np.mean([])` is NaN (modelled `none`), not the rate 0
the claim promises. -/
theorem c6_counterexample :
    (merchantsAnalyticsOf [mkSalesMerchant "Zero" (some 100) (some 0)]).average_profit_margin =
      none := by decide

/-- C6 amended: whenever some merchant has a strictly positive margin,
`average_profit_margin` is the arithmetic mean of exactly the strictly
positive margins (zero margins excluded, not counted as 0); with an empty
merchant set the literal default 0 is used.  (When merchants exist but
none has positive margin the value is NaN, not 0 — see the
counterexample.) -/
theorem c6_amended (sales_data : List MerchantRecord)
    (h : ∃ m ∈ sales_data, 0 < m.gross_profit_margin.getD 0) :
    (merchantsAnalyticsOf sales_data).average_profit_margin =
      some ((((sales_data.map (fun m => m.gross_profit_margin.getD 0)).filter
          (fun v => 0 < v)).sum) /
        (((sales_data.map (fun m => m.gross_profit_margin.getD 0)).filter
          (fun v => 0 < v)).length)) ∧
    (merchantsAnalyticsOf []).average_profit_margin = some 0 := by
  refine ⟨?_, by decide⟩
  rcases h with ⟨m, hm, hpos⟩
  have hs : sales_data ≠ [] := by
    rintro rfl
    exact absurd hm (List.not_mem_nil m)
  have hmem : m.gross_profit_margin.getD 0 ∈
      (sales_data.map (fun m => m.gross_profit_margin.getD 0)).filter (fun v => 0 < v) :=
    List.mem_filter.mpr ⟨List.mem_map_of_mem _ hm, by simpa using hpos⟩
  unfold merchantsAnalyticsOf
  rw [if_neg hs]
  simp only []
  rw [if_neg (List.ne_nil_of_mem hmem)]

/-- C6 witness: margins 30, 0, 50 average to 40 (the zero margin is
excluded from the mean). -/
theorem c6_witness :
    (merchantsAnalyticsOf marginSample).average_profit_margin = some 40 :=
  ((c6_amended marginSample (by decide)).1).trans (by with_unfolding_all decide)

/-! ## C1 -/

/-- C1: for every report line set and merchant identity, whenever the
selected parser variant returns a candidate list (this covers all four
dispatch branches, including the empty fallback), the dispatcher output is
that list stably sorted non-increasing by gross sales and truncated to the
first 3: it has length at most 3, is pairwise non-increasing, and any
sublist of the candidates already ordered under `itemGe` (in particular a
run of equal gross sales in extraction order) survives as a sublist of the
sorted list. -/
theorem c1_top_items (lines : List String) (merchant_name : String)
    (c : List SalesItem) (h : dispatchCandidates lines merchant_name = some c) :
    _extract_top_items lines merchant_name = some ((sortStep c).take 3) ∧
    ((sortStep c).take 3).length ≤ 3 ∧
    ((sortStep c).take 3).Pairwise itemGe ∧
    (∀ l' : List SalesItem, l'.Pairwise itemGe → List.Sublist l' c →
      List.Sublist l' (sortStep c)) := by
  refine ⟨?_, ?_, ?_, ?_⟩
  · unfold _extract_top_items
    rw [h]
    rfl
  · exact List.length_take_le 3 _
  · exact (List.sorted_insertionSort itemGe c).sublist (List.take_sublist 3 _)
  · intro l' hp hsub
    exact List.sublist_insertionSort hp hsub

/-- C1 witness: Variant C candidates with a gross-sales tie; the
dispatcher keeps the tie in extraction order and truncates to 3. -/
theorem c1_witness :
    _extract_top_items pizzaLines "Pizza Shack" =
      some [⟨"Cheese Pizza", 7⟩, ⟨"Veggie Pizza", 5⟩, ⟨"Meat pizza", 5⟩] := by
  rw [(c1_top_items pizzaLines "Pizza Shack"
    [⟨"Cheese Pizza", 7⟩, ⟨"Veggie Pizza", 5⟩, ⟨"Meat pizza", 5⟩, ⟨"Supreme Pizza", 1⟩]
    (by with_unfolding_all decide)).1]
  with_unfolding_all decide

/-! ## C7 -/

/-- C7 counterexample: the row `,PIZZA SPECIAL,$5.00` satisfies every
condition of the claim under case-insensitive keyword matching (leading
separator, keyword in the line and in the name field, positive gross
sales), yet Variant C yields no candidate: the code checks only the two
exact casings `Pizza` and `pizza`. -/
theorem c7_counterexample :
    _parse_pizza_items [",PIZZA SPECIAL,$5.00"] = some [] ∧
    pyStartsWith (pyStrip ",PIZZA SPECIAL,$5.00") "," = true ∧
    containsStr (pyLower (pyStrip ",PIZZA SPECIAL,$5.00")) "pizza" = true ∧
    containsStr (pyLower "PIZZA SPECIAL") "pizza" = true ∧
    extract_currency "$5.00" = some 5 ∧ (0 : ℚ) < 5 := by
  with_unfolding_all decide

/-- Soundness of one Variant C line: any produced candidate comes from a
line satisfying the code conditions of `pizzaRowOk`. -/
theorem pizzaLine_sound (line : String) (its : List SalesItem) (it : SalesItem)
    (h : pizzaLine line = some its) (hit : it ∈ its) : pizzaRowOk line it := by
  unfold pizzaLine at h
  dsimp only at h
  by_cases h1 : pyStrip line = "" ∨ pyStartsWith (pyStrip line) "," = false
  · rw [if_pos h1] at h
    cases h
    exact absurd hit (List.not_mem_nil it)
  · rw [if_neg h1] at h
    by_cases h2 : ¬(containsStr (pyStrip line) "Pizza" = true ∨
        containsStr (pyStrip line) "pizza" = true)
    · rw [if_pos h2] at h
      cases h
      exact absurd hit (List.not_mem_nil it)
    · rw [if_neg h2] at h
      by_cases h3 : 3 ≤ ((pySplitComma (pyStrip line)).map stripQuoteSpace).length
      · rw [if_pos h3] at h
        by_cases h4 : ((pySplitComma (pyStrip line)).map stripQuoteSpace).getD 1 "" ≠ "" ∧
            (containsStr (((pySplitComma (pyStrip line)).map stripQuoteSpace).getD 1 "")
                "Pizza" = true ∨
             containsStr (((pySplitComma (pyStrip line)).map stripQuoteSpace).getD 1 "")
                "pizza" = true)
        · rw [if_pos h4] at h
          rcases hec : extract_currency
              (((pySplitComma (pyStrip line)).map stripQuoteSpace).getD 2 "") with _ | amt
          · rw [hec] at h
            exact absurd h (by simp)
          · rw [hec] at h
            have h' := Option.some.inj h
            by_cases hpos : 0 < amt
            · rw [if_pos hpos] at h'
              rw [← h'] at hit
              rcases List.mem_singleton.mp hit with rfl
              rcases not_or.mp h1 with ⟨-, hsep⟩
              exact ⟨by simpa using hsep, not_not.mp h2, h3, rfl, h4.1, h4.2, hec, hpos⟩
            · rw [if_neg hpos] at h'
              rw [← h'] at hit
              exact absurd hit (List.not_mem_nil it)
        · rw [if_neg h4] at h
          cases h
          exact absurd hit (List.not_mem_nil it)
      · rw [if_neg h3] at h
        cases h
        exact absurd hit (List.not_mem_nil it)

/-- C7 amended: Variant C yields a candidate only from a line with a
leading separator whose line and name field contain the keyword in one of
the two exact casings `Pizza`/`pizza` (not arbitrary casing) and whose
third field has strictly positive extracted gross sales. -/
theorem c7_amended (lines : List String) (r : List SalesItem)
    (h : _parse_pizza_items lines = some r) :
    ∀ it ∈ r, ∃ line ∈ lines, pizzaRowOk line it := by
  induction lines generalizing r with
  | nil =>
    unfold _parse_pizza_items at h
    rcases Option.some.injEq .. ▸ h with rfl
    intro it hit
    exact absurd hit (List.not_mem_nil it)
  | cons a t ih =>
    unfold _parse_pizza_items at h
    rcases hx : pizzaLine a with _ | x
    · rw [hx] at h
      exact absurd h (by simp)
    · rw [hx] at h
      rcases hxs : _parse_pizza_items t with _ | xs
      · rw [hxs] at h
        exact absurd h (by simp)
      · rw [hxs] at h
        rcases Option.some.injEq .. ▸ h with rfl
        intro it hit
        rcases List.mem_append.mp hit with hl | hr
        · exact ⟨a, List.mem_cons_self a t, pizzaLine_sound a x it hx hl⟩
        · rcases ih xs hxs it hr with ⟨line, hline, hok⟩
          exact ⟨line, List.mem_cons_of_mem a hline, hok⟩

/-- C7 witness: the amended claim at a qualifying concrete row. -/
theorem c7_witness :
    ∃ line ∈ [",Cheese Pizza,$7.00"], pizzaRowOk line ⟨"Cheese Pizza", 7⟩ :=
  c7_amended [",Cheese Pizza,$7.00"] [⟨"Cheese Pizza", 7⟩]
    (by with_unfolding_all decide) ⟨"Cheese Pizza", 7⟩ (by with_unfolding_all decide)

/-! ## C8 -/

/-- C8: when any exception escapes the per-file pipeline of
`_process_sales_file`, the merchant list is unchanged (no partial record),
the per-file messages — including the error message — are appended to the
run output, and the CSV loop of `load_data_files` simply continues with
the remaining files. -/
theorem c8_file_failure (now : ℤ) (f : SrcFile) (rest : List SrcFile) (st : RunState)
    (hc : containsStr f.path "Customer" = false)
    (hs : (containsStr f.path "Revenue" || containsStr f.path "Sales") = true)
    (hfail : buildSalesRecord now f = none) :
    (_process_sales_file now st f).sales_data = st.sales_data ∧
    _process_sales_file now st f =
      { st with output := st.output ++ ["Processing sales file: " ++ f.path,
                                        "Error in sales file processing"] } ∧
    loadCsvFiles now (f :: rest) st =
      loadCsvFiles now rest
        { st with output := st.output ++ ["Processing sales file: " ++ f.path,
                                          "Error in sales file processing"] } := by
  have hps : _process_sales_file now st f =
      { st with output := st.output ++ ["Processing sales file: " ++ f.path,
                                        "Error in sales file processing"] } := by
    unfold _process_sales_file
    rw [hfail]
    simp
  refine ⟨by rw [hps], hps, ?_⟩
  unfold loadCsvFiles
  rw [List.foldl_cons, hc]
  simp only [Bool.false_eq_true, if_false, hs, if_true]
  rw [hps]

/-- C8 witness: a sales-report file whose body has no second line (the
`lines[1]` lookup raises) is skipped with an error message, and the next
file is still processed. -/
theorem c8_witness :
    loadCsvFiles 0 [failFile, okFile] st0 =
      loadCsvFiles 0 [okFile]
        { st0 with output := ["Processing sales file: X-Revenue.csv",
                              "Error in sales file processing"] } :=
  (c8_file_failure 0 failFile [okFile] st0 (by decide) (by decide) (by decide)).2.2

/-! ## C5 -/

/-- C5 counterexample: `generate_analytics` does not take the reference
time as a parameter; it samples the wall clock twice.  Two runs over equal
inputs that start at the same instant (the clocks agree at sample 0) still
differ once the clock has advanced by the second sample
(`data_processing_date`), so the output is not a function of the inputs
and one explicit reference time. -/
theorem c5_counterexample :
    clockA 0 = clockB 0 ∧
    generate_analytics [c5CustomerRow] [] [] [] clockA ≠
      generate_analytics [c5CustomerRow] [] [] [] clockB := by
  refine ⟨rfl, ?_⟩
  with_unfolding_all decide

/-- C5 amended: the aggregation is deterministic modulo the wall-clock
samples it takes itself: the output depends only on the record sets and
the two sampled instants, so two runs over equal inputs whose clocks agree
on samples 0 and 1 produce identical analytics.  (The source reads
`datetime.now()` inside `generate_analytics` — lines 376 and 466 — rather
than taking one explicit reference-time parameter.) -/
theorem c5_amended (customerRows : List CustomerRow) (businessRows : List BusinessRow)
    (salesData : List MerchantRecord) (inventoryData : List InventorySummary)
    (clock1 clock2 : ℕ → ℤ) (h0 : clock1 0 = clock2 0) (h1 : clock1 1 = clock2 1) :
    generate_analytics customerRows businessRows salesData inventoryData clock1 =
      generate_analytics customerRows businessRows salesData inventoryData clock2 := by
  by_cases hc : customerRows = [] <;>
    simp [generate_analytics, hc, h0, h1]

/-- C5 witness: the amended claim at concrete inputs and two clocks that
agree on both sampled instants. -/
theorem c5_witness :
    generate_analytics [c5CustomerRow] [] [] [] clockA =
      generate_analytics [c5CustomerRow] [] [] [] clockC :=
  c5_amended [c5CustomerRow] [] [] [] clockA clockC (by decide) (by decide)

end DataRefinement
